import Mathlib

/-!
Shallow embedding of src/server.js, an Express gateway over an S3-style
object store.  Each route handler is embedded as a pure function from the
request data and the outcome of the storage calls it makes to the pair of
the list of storage calls it issued and the HTTP response it sends.
-/

set_option maxRecDepth 4000

namespace S3Gateway

/-- An error raised by the storage service (aws-sdk style): an error code
such as "NotFound" and a human-readable message. -/
structure S3Error where
  code : String
  message : String
deriving DecidableEq, Repr

/-- A multipart upload buffered in memory by multer (src/server.js line 26).
The claims depend only on the byte count of the buffered file, so the
buffer is abstracted to its size in bytes. -/
structure FileUpload where
  originalname : String
  size : Nat
  mimetype : String
deriving DecidableEq, Repr

/-- Parameters of an s3.upload call (src/server.js lines 47-53); the body
is abstracted to its byte count. -/
structure PutObjectParams where
  bucket : String
  key : String
  bodySize : Nat
  contentType : String
  acl : String
deriving DecidableEq, Repr

/-- Result of a successful s3.upload call (Location, Bucket, ETag). -/
structure PutObjectResult where
  location : String
  bucket : String
  etag : String
deriving DecidableEq, Repr

/-- One object entry in an s3.listObjectsV2 result (Key, LastModified,
Size, ETag); the timestamp is abstracted to a number. -/
structure S3Object where
  key : String
  lastModified : Nat
  size : Nat
  etag : String
deriving DecidableEq, Repr

/-- Result of a successful s3.listObjectsV2 call: its Contents array. -/
structure ListObjectsResult where
  contents : List S3Object
deriving DecidableEq, Repr

/-- One element of the files array in the GET /api/files response
(src/server.js lines 86-91). -/
structure FileEntry where
  key : String
  lastModified : Nat
  size : Nat
  etag : String
deriving DecidableEq, Repr

/-- Parameters of an s3.getSignedUrlPromise call (src/server.js
lines 150-154): Bucket, Key, Expires. -/
structure SignedUrlParams where
  bucket : String
  key : String
  expires : Int
deriving DecidableEq, Repr

/-- A storage call issued by some handler, recorded with its parameters. -/
inductive S3Call where
  | putObject (p : PutObjectParams)
  | listObjectsV2 (bucket : String) (maxKeys : Nat)
  | headObject (bucket : String) (key : String)
  | getObject (bucket : String) (key : String)
  | getSignedUrl (operation : String) (bucket : String) (key : String) (expires : Int)
  | deleteObject (bucket : String) (key : String)
deriving DecidableEq, Repr

/-- The JSON (or stream) body of an HTTP response, one constructor per
body shape appearing in src/server.js. -/
inductive Body where
  | jsonError (error : String)
  | jsonErrorDetails (error : String) (details : String)
  | uploadSuccess (message : String) (key : String) (location : String)
      (bucket : String) (etag : String)
  | listSuccess (files : List FileEntry) (count : Nat)
  | fileUrlSuccess (url : String) (expires : Int)
  | deleteSuccess (message : String) (key : String)
  | stream (contentDisposition : String) (contentType : String)
deriving DecidableEq, Repr

/-- The details field of a response body, when present: this is where the
catch blocks of src/server.js surface the underlying error message. -/
def Body.details : Body → Option String
  | .jsonErrorDetails _ d => some d
  | _ => none

/-- An HTTP response: status code and body. -/
structure Response where
  status : Nat
  body : Body
deriving DecidableEq, Repr

/-! ### JavaScript number parsing for the expires query parameter -/

/-- Numeric value of a decimal digit character. -/
def digitVal (c : Char) : Nat := c.toNat - 48

/-- Natural number denoted by a list of decimal digit characters. -/
def natOfDigits (ds : List Char) : Nat :=
  ds.foldl (fun acc c => acc * 10 + digitVal c) 0

/-- JavaScript parseInt on a string with no radix argument, for inputs
without a 0x hex marker (no claim involves hex input): leading whitespace
is skipped, an optional sign is read, then the longest prefix of decimal
digits; none models the NaN result when no digits are found. -/
def parseIntJS (s : String) : Option Int :=
  let cs := s.data.dropWhile (fun c => c == ' ' || c == '\t' || c == '\n' || c == '\r')
  let signAndRest : Bool × List Char :=
    match cs with
    | '-' :: rest => (true, rest)
    | '+' :: rest => (false, rest)
    | _ => (false, cs)
  let ds := signAndRest.2.takeWhile Char.isDigit
  if ds.isEmpty then none
  else
    let n : Nat := natOfDigits ds
    some (if signAndRest.1 then -(n : Int) else (n : Int))

/-- parseInt applied to req.query.expires: an absent query parameter is
the JavaScript value undefined, which parseInt coerces to the string
"undefined" and hence parses to NaN. -/
def parseIntOfQuery (q : Option String) : Option Int :=
  match q with
  | none => parseIntJS "undefined"
  | some s => parseIntJS s

/-- Expiration used by GET /api/file-url/:key (src/server.js line 148):
the JavaScript expression parseInt(req.query.expires) prefixed to a
logical-or with 3600, whose falsy numeric values are NaN and 0. -/
def fileUrlExpiration (expiresQuery : Option String) : Int :=
  match parseIntOfQuery expiresQuery with
  | none => 3600
  | some n => if n = 0 then 3600 else n

/-! ### Multer size limit -/

/-- The multer fileSize limit (src/server.js line 30): 10 * 1024 * 1024. -/
def multerFileSizeLimit : Nat := 10 * 1024 * 1024

/-- Whether multer admits a file of the given byte count.  Busboy treats
limits.fileSize as the max file size in bytes: a file whose byte count
exceeds the limit triggers LIMIT_FILE_SIZE and aborts the request before
the route handler runs; a file of at most the limit passes through. -/
def multerAdmits (size : Nat) : Bool := size ≤ multerFileSizeLimit

/-! ### Route handlers -/

/-- PutObjectParams built by the upload handler (src/server.js
lines 45-53): key is a template literal joining Date.now() and the
original filename with a hyphen; ACL is private. -/
def uploadParamsFor (bucket : String) (now : Nat) (f : FileUpload) : PutObjectParams :=
  ⟨bucket, toString now ++ "-" ++ f.originalname, f.size, f.mimetype, "private"⟩

/-- POST /api/upload handler body (src/server.js lines 39-74), after
multer has run: 400 when req.file is absent; otherwise one s3.upload call,
answered 200 with key, location, bucket, etag on success and 500 with the
error message on failure. -/
def uploadHandler (bucket : String) (now : Nat) (file : Option FileUpload)
    (s3upload : PutObjectParams → Except S3Error PutObjectResult) :
    List S3Call × Response :=
  match file with
  | none => ([], ⟨400, .jsonError "No file provided"⟩)
  | some f =>
    let uploadParams := uploadParamsFor bucket now f
    match s3upload uploadParams with
    | .ok result =>
      ([.putObject uploadParams],
       ⟨200, .uploadSuccess "File uploaded successfully" uploadParams.key
          result.location result.bucket result.etag⟩)
    | .error e =>
      ([.putObject uploadParams],
       ⟨500, .jsonErrorDetails "Failed to upload file" e.message⟩)

/-- Outcome of the whole POST /api/upload route, multer included. -/
inductive UploadOutcome where
  | sizeLimitAbort
  | handled (calls : List S3Call) (response : Response)
deriving DecidableEq, Repr

/-- Storage calls issued by an upload outcome: none when multer aborted
the request before the handler. -/
def UploadOutcome.calls : UploadOutcome → List S3Call
  | .sizeLimitAbort => []
  | .handled cs _ => cs

/-- POST /api/upload route: the multer middleware upload.single runs
first and aborts with LIMIT_FILE_SIZE when the buffered file exceeds the
size limit; otherwise the handler runs (a request with no file part is
passed through with req.file undefined). -/
def uploadRoute (bucket : String) (now : Nat) (file : Option FileUpload)
    (s3upload : PutObjectParams → Except S3Error PutObjectResult) : UploadOutcome :=
  match file with
  | some f =>
    if multerAdmits f.size then
      let r := uploadHandler bucket now (some f) s3upload
      .handled r.1 r.2
    else
      .sizeLimitAbort
  | none =>
    let r := uploadHandler bucket now none s3upload
    .handled r.1 r.2

/-- Projection of one listObjectsV2 entry into the response files array
(src/server.js lines 86-91). -/
def fileEntryOf (f : S3Object) : FileEntry :=
  ⟨f.key, f.lastModified, f.size, f.etag⟩

/-- GET /api/files handler (src/server.js lines 77-105): one
s3.listObjectsV2 call with MaxKeys 1000; on success the Contents array is
mapped to key, lastModified, size, etag and answered with its length as
count; on failure 500 with the error message. -/
def listFilesHandler (bucket : String)
    (s3listObjectsV2 : String → Nat → Except S3Error ListObjectsResult) :
    List S3Call × Response :=
  let maxKeys : Nat := 1000
  match s3listObjectsV2 bucket maxKeys with
  | .ok result =>
    let files := result.contents.map fileEntryOf
    ([.listObjectsV2 bucket maxKeys], ⟨200, .listSuccess files files.length⟩)
  | .error e =>
    ([.listObjectsV2 bucket maxKeys],
     ⟨500, .jsonErrorDetails "Failed to retrieve files" e.message⟩)

/-- GET /api/download/:key handler (src/server.js lines 108-142): an
s3.headObject existence probe first; a head error with code NotFound is
answered 404, any other head error reaches the outer catch and is
answered 500 with its message; when the probe succeeds the object is
streamed with attachment disposition (status 200). -/
def downloadHandler (bucket : String) (fileKey : String)
    (headResult : Except S3Error Unit) : List S3Call × Response :=
  match headResult with
  | .error headError =>
    if headError.code = "NotFound" then
      ([.headObject bucket fileKey], ⟨404, .jsonError "File not found"⟩)
    else
      ([.headObject bucket fileKey],
       ⟨500, .jsonErrorDetails "Failed to download file" headError.message⟩)
  | .ok _ =>
    ([.headObject bucket fileKey, .getObject bucket fileKey],
     ⟨200, .stream ("attachment; filename=\"" ++ fileKey ++ "\"") "application/octet-stream"⟩)

/-- GET /api/file-url/:key handler (src/server.js lines 145-170): one
s3.getSignedUrlPromise call for getObject with the parsed expiration;
200 with url and the same expiration on success, 500 with the error
message on failure. -/
def fileUrlHandler (bucket : String) (fileKey : String) (expiresQuery : Option String)
    (s3getSignedUrl : String → SignedUrlParams → Except S3Error String) :
    List S3Call × Response :=
  let expiration := fileUrlExpiration expiresQuery
  match s3getSignedUrl "getObject" ⟨bucket, fileKey, expiration⟩ with
  | .ok url =>
    ([.getSignedUrl "getObject" bucket fileKey expiration],
     ⟨200, .fileUrlSuccess url expiration⟩)
  | .error e =>
    ([.getSignedUrl "getObject" bucket fileKey expiration],
     ⟨500, .jsonErrorDetails "Failed to generate file URL" e.message⟩)

/-- DELETE /api/delete/:key handler (src/server.js lines 173-196): one
unconditional s3.deleteObject call; 200 with the key on success, 500 with
the error message on failure. -/
def deleteHandler (bucket : String) (fileKey : String)
    (deleteResult : Except S3Error Unit) : List S3Call × Response :=
  match deleteResult with
  | .ok _ =>
    ([.deleteObject bucket fileKey],
     ⟨200, .deleteSuccess "File deleted successfully" fileKey⟩)
  | .error e =>
    ([.deleteObject bucket fileKey],
     ⟨500, .jsonErrorDetails "Failed to delete file" e.message⟩)

/-- Modelled from the spec: the Object Storage Service collaborator
contract delete-object(bucket,key) to ack, where the underlying service
"does not error on missing key" (spec section 4.1); the bucket state is
the list of keys it holds, deletion removes the key (a no-op when the key
is absent) and always acknowledges.  The aws-sdk S3 client itself is not
part of this repository. -/
def s3DeleteObject (bucketKeys : List String) (key : String) :
    List String × Except S3Error Unit :=
  (bucketKeys.filter (fun k => !(k == key)), Except.ok ())

/-- DELETE /api/delete/:key route run against a bucket state: the
modelled delete-object call followed by the handler; yields the new
bucket state, the calls issued and the response. -/
def deleteRoute (bucket : String) (bucketKeys : List String) (fileKey : String) :
    List String × (List S3Call × Response) :=
  let step := s3DeleteObject bucketKeys fileKey
  (step.1, deleteHandler bucket fileKey step.2)

/-! ### Concrete storage services used by witnesses and counterexamples -/

/-- Upload service that always succeeds. -/
def okUploadSvc : PutObjectParams → Except S3Error PutObjectResult :=
  fun _ => .ok ⟨"https://bkt.s3.amazonaws.com/obj", "bkt", "etag1"⟩

/-- Upload service that always fails with a fixed error. -/
def errUploadSvc : PutObjectParams → Except S3Error PutObjectResult :=
  fun _ => .error ⟨"InternalError", "boom"⟩

/-- List service that always returns one fixed object. -/
def okListSvc : String → Nat → Except S3Error ListObjectsResult :=
  fun _ _ => .ok ⟨[⟨"k1", 5, 3, "e1"⟩]⟩

/-- List service that always fails with a fixed error. -/
def errListSvc : String → Nat → Except S3Error ListObjectsResult :=
  fun _ _ => .error ⟨"InternalError", "boom"⟩

/-- Signed-URL service that always succeeds with a fixed URL. -/
def okSignSvc : String → SignedUrlParams → Except S3Error String :=
  fun _ _ => .ok "https://signed"

/-- Signed-URL service that always fails with a fixed error. -/
def errSignSvc : String → SignedUrlParams → Except S3Error String :=
  fun _ _ => .error ⟨"InternalError", "boom"⟩

/-! ### Helper lemmas -/

/-- Filtering a list by the same predicate twice equals filtering once. -/
theorem filter_idem (p : String → Bool) (l : List String) :
    (l.filter p).filter p = l.filter p := by
  induction l with
  | nil => rfl
  | cons a t ih => cases h : p a <;> simp [List.filter_cons, h, ih]

/-- An omitted expires query parameter parses to NaN, so the expiration
defaults to 3600. -/
theorem fileUrlExpiration_none : fileUrlExpiration none = 3600 := rfl

/-- A supplied expires value that parses to a nonzero integer is used as
the expiration. -/
theorem fileUrlExpiration_some (s : String) (n : Int)
    (hp : parseIntJS s = some n) (hn : n ≠ 0) :
    fileUrlExpiration (some s) = n := by
  simp [fileUrlExpiration, parseIntOfQuery, hp, hn]

/-- The signed-URL handler always issues exactly one getSignedUrl call,
carrying the parsed expiration. -/
theorem fileUrlHandler_calls (bucket key : String) (q : Option String)
    (svc : String → SignedUrlParams → Except S3Error String) :
    (fileUrlHandler bucket key q svc).1 =
      [S3Call.getSignedUrl "getObject" bucket key (fileUrlExpiration q)] := by
  simp only [fileUrlHandler]
  cases svc "getObject" ⟨bucket, key, fileUrlExpiration q⟩ <;> rfl

/-- When the signed-URL handler answers success, the echoed expires field
is the parsed expiration. -/
theorem fileUrlHandler_success_expires (bucket key : String) (q : Option String)
    (svc : String → SignedUrlParams → Except S3Error String) (url : String) (e2 : Int)
    (h : (fileUrlHandler bucket key q svc).2.body = .fileUrlSuccess url e2) :
    e2 = fileUrlExpiration q := by
  simp only [fileUrlHandler] at h
  cases hs : svc "getObject" ⟨bucket, key, fileUrlExpiration q⟩ <;> rw [hs] at h <;> simp_all

/-! ### Claim theorems -/

/-- C1 counterexample: supplying the integer 0 as the expires query
parameter does not make the storage call or the response carry expiry 0;
the handler uses 3600 instead, because 0 is falsy in the JavaScript
logical-or on line 148 of src/server.js. -/
theorem fileUrl_expires_zero_counterexample :
    parseIntJS "0" = some 0
    ∧ (fileUrlHandler "bkt" "k" (some "0") okSignSvc).1 =
        [S3Call.getSignedUrl "getObject" "bkt" "k" 3600]
    ∧ (fileUrlHandler "bkt" "k" (some "0") okSignSvc).2 =
        ⟨200, .fileUrlSuccess "https://signed" 3600⟩
    ∧ (3600 : Int) ≠ 0 :=
  ⟨rfl, rfl, rfl, by decide⟩

/-- C1 (amended): the signed-URL expiry used in the storage call is 3600
when the expires query parameter is omitted, and equals the supplied
integer whenever the parameter parses to a nonzero integer (a supplied 0
falls back to 3600); the expires field echoed in a success response
always equals the expiry used in the storage call. -/
theorem fileUrl_expiry_default_and_supplied :
    (∀ bucket key svc, (fileUrlHandler bucket key none svc).1 =
        [S3Call.getSignedUrl "getObject" bucket key 3600])
    ∧ (∀ bucket key s n svc, parseIntJS s = some n → n ≠ 0 →
        (fileUrlHandler bucket key (some s) svc).1 =
          [S3Call.getSignedUrl "getObject" bucket key n])
    ∧ (∀ bucket key q svc url e2,
        (fileUrlHandler bucket key q svc).2.body = .fileUrlSuccess url e2 →
        e2 = fileUrlExpiration q
        ∧ (fileUrlHandler bucket key q svc).1 =
            [S3Call.getSignedUrl "getObject" bucket key e2]) := by
  refine ⟨fun bucket key svc => ?_, fun bucket key s n svc hp hn => ?_,
    fun bucket key q svc url e2 h => ?_⟩
  · rw [fileUrlHandler_calls, fileUrlExpiration_none]
  · rw [fileUrlHandler_calls, fileUrlExpiration_some s n hp hn]
  · have he := fileUrlHandler_success_expires bucket key q svc url e2 h
    exact ⟨he, by rw [fileUrlHandler_calls, he]⟩

/-- C1 witness: concrete instances of the amended expiry behavior. -/
theorem fileUrl_expiry_default_and_supplied_witness :
    (fileUrlHandler "bkt" "k" none okSignSvc).1 =
      [S3Call.getSignedUrl "getObject" "bkt" "k" 3600]
    ∧ (fileUrlHandler "bkt" "k" (some "60") okSignSvc).1 =
        [S3Call.getSignedUrl "getObject" "bkt" "k" 60]
    ∧ ((3600 : Int) = fileUrlExpiration none
        ∧ (fileUrlHandler "bkt" "k" none okSignSvc).1 =
            [S3Call.getSignedUrl "getObject" "bkt" "k" 3600]) :=
  ⟨fileUrl_expiry_default_and_supplied.1 "bkt" "k" okSignSvc,
   fileUrl_expiry_default_and_supplied.2.1 "bkt" "k" "60" 60 okSignSvc (by decide) (by decide),
   fileUrl_expiry_default_and_supplied.2.2 "bkt" "k" none okSignSvc "https://signed" 3600 rfl⟩

/-- C10: when the expires query parameter is present but parses to NaN or
to 0, the handler behaves exactly as if the parameter were omitted: no
error response is introduced, the storage call uses expiry 3600, and any
success response echoes 3600. -/
theorem fileUrl_nan_or_zero_uses_default (bucket key : String) (s : String)
    (svc : String → SignedUrlParams → Except S3Error String)
    (h : parseIntJS s = none ∨ parseIntJS s = some 0) :
    fileUrlHandler bucket key (some s) svc = fileUrlHandler bucket key none svc
    ∧ (fileUrlHandler bucket key (some s) svc).1 =
        [S3Call.getSignedUrl "getObject" bucket key 3600]
    ∧ ∀ url e2, (fileUrlHandler bucket key (some s) svc).2.body = .fileUrlSuccess url e2 →
        e2 = 3600 := by
  have hexp : fileUrlExpiration (some s) = 3600 := by
    rcases h with h | h <;> simp [fileUrlExpiration, parseIntOfQuery, h]
  refine ⟨?_, ?_, fun url e2 hb => ?_⟩
  · simp only [fileUrlHandler, hexp, fileUrlExpiration_none]
  · rw [fileUrlHandler_calls, hexp]
  · have he := fileUrlHandler_success_expires bucket key (some s) svc url e2 hb
    rw [he, hexp]

/-- C10 witness: expires equal to "0" and to a non-numeric string both
behave as an omitted parameter, and a success response echoes 3600. -/
theorem fileUrl_nan_or_zero_uses_default_witness :
    fileUrlHandler "bkt" "k" (some "0") okSignSvc = fileUrlHandler "bkt" "k" none okSignSvc
    ∧ fileUrlHandler "bkt" "k" (some "abc") okSignSvc = fileUrlHandler "bkt" "k" none okSignSvc
    ∧ (3600 : Int) = 3600 :=
  ⟨(fileUrl_nan_or_zero_uses_default "bkt" "k" "0" okSignSvc (Or.inr (by decide))).1,
   (fileUrl_nan_or_zero_uses_default "bkt" "k" "abc" okSignSvc (Or.inl (by decide))).1,
   (fileUrl_nan_or_zero_uses_default "bkt" "k" "0" okSignSvc
      (Or.inr (by decide))).2.2 "https://signed" 3600 rfl⟩

/-- C3: a download whose existence probe fails with code NotFound is
answered 404; a head error with any other code is answered 500 with its
message; a successful probe leads to the 200 streamed response. -/
theorem download_notfound_is_404 (bucket key : String) (e : S3Error) :
    (e.code = "NotFound" →
      (downloadHandler bucket key (.error e)).2 = ⟨404, .jsonError "File not found"⟩)
    ∧ (e.code ≠ "NotFound" →
      (downloadHandler bucket key (.error e)).2 =
        ⟨500, .jsonErrorDetails "Failed to download file" e.message⟩)
    ∧ (downloadHandler bucket key (.ok ())).2.status = 200 :=
  ⟨fun h => by simp [downloadHandler, h],
   fun h => by simp [downloadHandler, h],
   rfl⟩

/-- C3 witness: a NotFound probe error yields 404 and a different probe
error yields 500 on concrete inputs. -/
theorem download_notfound_is_404_witness :
    (downloadHandler "bkt" "k" (.error ⟨"NotFound", "m"⟩)).2 =
      ⟨404, .jsonError "File not found"⟩
    ∧ (downloadHandler "bkt" "k" (.error ⟨"AccessDenied", "m"⟩)).2 =
        ⟨500, .jsonErrorDetails "Failed to download file" "m"⟩ :=
  ⟨(download_notfound_is_404 "bkt" "k" ⟨"NotFound", "m"⟩).1 rfl,
   (download_notfound_is_404 "bkt" "k" ⟨"AccessDenied", "m"⟩).2.1 (by decide)⟩

/-- C4: an upload request with no file multipart field is answered 400
with the no-file error body and no storage call of any kind is made. -/
theorem upload_no_file_400 (bucket : String) (now : Nat)
    (s3upload : PutObjectParams → Except S3Error PutObjectResult) :
    uploadRoute bucket now none s3upload =
      .handled [] ⟨400, .jsonError "No file provided"⟩ := rfl

/-- C5: the delete route issues exactly one storage call, the delete-object
call, with no prior existence probe, and answers 200 with the key for
every bucket state, the key being absent included; a second delete of the
same key yields the same response and the same final bucket state. -/
theorem delete_unconditional_idempotent (bucket : String)
    (bucketKeys : List String) (key : String) :
    (deleteRoute bucket bucketKeys key).2 =
      ([S3Call.deleteObject bucket key],
       ⟨200, .deleteSuccess "File deleted successfully" key⟩)
    ∧ (deleteRoute bucket (deleteRoute bucket bucketKeys key).1 key).2 =
        (deleteRoute bucket bucketKeys key).2
    ∧ (deleteRoute bucket (deleteRoute bucket bucketKeys key).1 key).1 =
        (deleteRoute bucket bucketKeys key).1 :=
  ⟨rfl, rfl, by simp [deleteRoute, s3DeleteObject, filter_idem]⟩

/-- C9: in every successful list response the count field equals the
length of the files array. -/
theorem list_count_eq_length (bucket : String)
    (svc : String → Nat → Except S3Error ListObjectsResult)
    (files : List FileEntry) (count : Nat)
    (h : (listFilesHandler bucket svc).2.body = .listSuccess files count) :
    count = files.length := by
  simp only [listFilesHandler] at h
  cases hs : svc bucket 1000 with
  | ok r =>
    rw [hs] at h
    simp only [Body.listSuccess.injEq] at h
    obtain ⟨h1, h2⟩ := h
    subst h1
    subst h2
    rfl
  | error e =>
    rw [hs] at h
    simp at h

/-- C9 witness: a concrete successful list response has count equal to
the length of its files array. -/
theorem list_count_eq_length_witness :
    (1 : Nat) = ([(⟨"k1", 5, 3, "e1"⟩ : FileEntry)]).length :=
  list_count_eq_length "bkt" okListSvc [⟨"k1", 5, 3, "e1"⟩] 1 rfl

/-- C2 counterexample: a file of exactly 10 MiB (10 * 1024 * 1024 bytes)
is admitted by the multer size check, the handler runs, and the put-object
call is issued, contrary to the claim that every file of at least 10 MiB
is rejected before the handler with no storage call. -/
theorem upload_at_cap_admitted_counterexample :
    multerAdmits (10 * 1024 * 1024) = true
    ∧ uploadRoute "bkt" 1 (some ⟨"a.txt", 10 * 1024 * 1024, "text/plain"⟩) okUploadSvc =
        .handled
          [S3Call.putObject ⟨"bkt", "1-a.txt", 10 * 1024 * 1024, "text/plain", "private"⟩]
          ⟨200, .uploadSuccess "File uploaded successfully" "1-a.txt"
            "https://bkt.s3.amazonaws.com/obj" "bkt" "etag1"⟩ :=
  ⟨rfl, rfl⟩

/-- C2 (amended): a file whose size strictly exceeds the 10 MiB limit is
rejected by multer before the handler runs and no storage call is made;
every file of size at most the limit is admitted by the size check and
reaches the handler. -/
theorem upload_size_limit_enforced (bucket : String) (now : Nat) (f : FileUpload)
    (svc : PutObjectParams → Except S3Error PutObjectResult) :
    (multerFileSizeLimit < f.size →
      uploadRoute bucket now (some f) svc = .sizeLimitAbort
      ∧ (uploadRoute bucket now (some f) svc).calls = [])
    ∧ (f.size ≤ multerFileSizeLimit →
      multerAdmits f.size = true
      ∧ uploadRoute bucket now (some f) svc =
          .handled (uploadHandler bucket now (some f) svc).1
            (uploadHandler bucket now (some f) svc).2) := by
  constructor
  · intro hgt
    have hadm : multerAdmits f.size = false := by
      unfold multerAdmits
      exact decide_eq_false (Nat.not_le.mpr hgt)
    constructor <;> simp [uploadRoute, hadm, UploadOutcome.calls]
  · intro hle
    have hadm : multerAdmits f.size = true := decide_eq_true hle
    exact ⟨hadm, by simp [uploadRoute, hadm]⟩

/-- C2 witness: a file one byte over the limit is aborted with no calls;
a small file is admitted and handled. -/
theorem upload_size_limit_enforced_witness :
    (uploadRoute "bkt" 1 (some ⟨"a.txt", 10485761, "text/plain"⟩) okUploadSvc = .sizeLimitAbort
      ∧ (uploadRoute "bkt" 1 (some ⟨"a.txt", 10485761, "text/plain"⟩) okUploadSvc).calls = [])
    ∧ (multerAdmits 5 = true
      ∧ uploadRoute "bkt" 1 (some ⟨"a.txt", 5, "text/plain"⟩) okUploadSvc =
          .handled (uploadHandler "bkt" 1 (some ⟨"a.txt", 5, "text/plain"⟩) okUploadSvc).1
            (uploadHandler "bkt" 1 (some ⟨"a.txt", 5, "text/plain"⟩) okUploadSvc).2) :=
  ⟨(upload_size_limit_enforced "bkt" 1 ⟨"a.txt", 10485761, "text/plain"⟩ okUploadSvc).1
      (by decide),
   (upload_size_limit_enforced "bkt" 1 ⟨"a.txt", 5, "text/plain"⟩ okUploadSvc).2
      (by decide)⟩

/-- C6: for every admitted upload, the put-object call carries the key
built as the decimal timestamp, a hyphen, and the original filename, for
every filename and every service outcome, with no further validation or
deduplication; every 200 success response echoes that same key. -/
theorem upload_key_scheme (bucket : String) (now : Nat) (f : FileUpload)
    (svc : PutObjectParams → Except S3Error PutObjectResult)
    (h : multerAdmits f.size = true) :
    (uploadRoute bucket now (some f) svc).calls =
      [S3Call.putObject (uploadParamsFor bucket now f)]
    ∧ (uploadParamsFor bucket now f).key = toString now ++ "-" ++ f.originalname
    ∧ ∀ calls msg key loc bkt etag,
        uploadRoute bucket now (some f) svc =
          .handled calls ⟨200, .uploadSuccess msg key loc bkt etag⟩ →
        key = toString now ++ "-" ++ f.originalname := by
  refine ⟨?_, rfl, fun calls msg key loc bkt etag hr => ?_⟩
  · simp only [uploadRoute, h, if_true, uploadHandler, UploadOutcome.calls]
    cases svc (uploadParamsFor bucket now f) <;> rfl
  · simp only [uploadRoute, h, if_true, uploadHandler] at hr
    cases hs : svc (uploadParamsFor bucket now f) <;> rw [hs] at hr <;> simp_all
    exact hr.2.2.1.symm

/-- C6 witness: the key scheme on a concrete upload. -/
theorem upload_key_scheme_witness :
    (uploadRoute "bkt" 7 (some ⟨"a.txt", 5, "text/plain"⟩) okUploadSvc).calls =
      [S3Call.putObject (uploadParamsFor "bkt" 7 ⟨"a.txt", 5, "text/plain"⟩)]
    ∧ (uploadParamsFor "bkt" 7 ⟨"a.txt", 5, "text/plain"⟩).key = toString 7 ++ "-" ++ "a.txt"
    ∧ "7-a.txt" = toString 7 ++ "-" ++ "a.txt" :=
  ⟨(upload_key_scheme "bkt" 7 ⟨"a.txt", 5, "text/plain"⟩ okUploadSvc (by decide)).1,
   (upload_key_scheme "bkt" 7 ⟨"a.txt", 5, "text/plain"⟩ okUploadSvc (by decide)).2.1,
   (upload_key_scheme "bkt" 7 ⟨"a.txt", 5, "text/plain"⟩ okUploadSvc (by decide)).2.2
      [S3Call.putObject (uploadParamsFor "bkt" 7 ⟨"a.txt", 5, "text/plain"⟩)]
      "File uploaded successfully" "7-a.txt" "https://bkt.s3.amazonaws.com/obj" "bkt" "etag1"
      rfl⟩

/-- C7 counterexample: a download existence probe failing with code
NotFound and message "boom" is answered with the fixed not-found body,
whose details field does not carry the underlying message, contrary to
the claim that every storage failure surfaces its message verbatim in the
response body. -/
theorem error_message_passthrough_counterexample :
    (downloadHandler "bkt" "k" (.error ⟨"NotFound", "boom"⟩)).2 =
      ⟨404, .jsonError "File not found"⟩
    ∧ Body.details (downloadHandler "bkt" "k" (.error ⟨"NotFound", "boom"⟩)).2.body ≠
        some "boom" :=
  ⟨rfl, by decide⟩

/-- C7 (amended): every storage failure is answered 500 with the
underlying error message verbatim in the details field of the body,
except the download not-found case, which is answered 404 with a fixed
body carrying no details; the missing-file client error is answered
400. -/
theorem error_mapping_amended :
    (∀ bucket now f e svc, multerAdmits f.size = true →
      svc (uploadParamsFor bucket now f) = .error e →
      uploadRoute bucket now (some f) svc =
        .handled [S3Call.putObject (uploadParamsFor bucket now f)]
          ⟨500, .jsonErrorDetails "Failed to upload file" e.message⟩)
    ∧ (∀ bucket svc e, svc bucket 1000 = .error e →
      (listFilesHandler bucket svc).2 =
        ⟨500, .jsonErrorDetails "Failed to retrieve files" e.message⟩)
    ∧ (∀ bucket key e, e.code ≠ "NotFound" →
      (downloadHandler bucket key (.error e)).2 =
        ⟨500, .jsonErrorDetails "Failed to download file" e.message⟩)
    ∧ (∀ bucket key e, e.code = "NotFound" →
      (downloadHandler bucket key (.error e)).2 = ⟨404, .jsonError "File not found"⟩
      ∧ Body.details (downloadHandler bucket key (.error e)).2.body = none)
    ∧ (∀ bucket key q e svc,
      svc "getObject" (⟨bucket, key, fileUrlExpiration q⟩ : SignedUrlParams) = .error e →
      (fileUrlHandler bucket key q svc).2 =
        ⟨500, .jsonErrorDetails "Failed to generate file URL" e.message⟩)
    ∧ (∀ bucket key e, (deleteHandler bucket key (.error e)).2 =
      ⟨500, .jsonErrorDetails "Failed to delete file" e.message⟩)
    ∧ (∀ bucket now svc, uploadRoute bucket now none svc =
      .handled [] ⟨400, .jsonError "No file provided"⟩) := by
  refine ⟨fun bucket now f e svc hadm hsvc => ?_, fun bucket svc e hsvc => ?_,
    fun bucket key e h => ?_, fun bucket key e h => ?_,
    fun bucket key q e svc hsvc => ?_, fun bucket key e => rfl, fun bucket now svc => rfl⟩
  · simp [uploadRoute, hadm, uploadHandler, hsvc]
  · simp [listFilesHandler, hsvc]
  · simp [downloadHandler, h]
  · refine ⟨by simp [downloadHandler, h], ?_⟩
    simp [downloadHandler, h, Body.details]
  · simp [fileUrlHandler, hsvc]

/-- C7 witness: concrete instances of each branch of the error mapping. -/
theorem error_mapping_amended_witness :
    uploadRoute "bkt" 1 (some ⟨"a.txt", 5, "text/plain"⟩) errUploadSvc =
      .handled [S3Call.putObject (uploadParamsFor "bkt" 1 ⟨"a.txt", 5, "text/plain"⟩)]
        ⟨500, .jsonErrorDetails "Failed to upload file" "boom"⟩
    ∧ (listFilesHandler "bkt" errListSvc).2 =
        ⟨500, .jsonErrorDetails "Failed to retrieve files" "boom"⟩
    ∧ (downloadHandler "bkt" "k" (.error ⟨"AccessDenied", "boom"⟩)).2 =
        ⟨500, .jsonErrorDetails "Failed to download file" "boom"⟩
    ∧ ((downloadHandler "bkt" "k" (.error ⟨"NotFound", "boom"⟩)).2 =
          ⟨404, .jsonError "File not found"⟩
        ∧ Body.details (downloadHandler "bkt" "k" (.error ⟨"NotFound", "boom"⟩)).2.body = none)
    ∧ (fileUrlHandler "bkt" "k" none errSignSvc).2 =
        ⟨500, .jsonErrorDetails "Failed to generate file URL" "boom"⟩
    ∧ (deleteHandler "bkt" "k" (.error ⟨"InternalError", "boom"⟩)).2 =
        ⟨500, .jsonErrorDetails "Failed to delete file" "boom"⟩
    ∧ uploadRoute "bkt" 1 none okUploadSvc =
        .handled [] ⟨400, .jsonError "No file provided"⟩ :=
  ⟨error_mapping_amended.1 "bkt" 1 ⟨"a.txt", 5, "text/plain"⟩ ⟨"InternalError", "boom"⟩
      errUploadSvc (by decide) rfl,
   error_mapping_amended.2.1 "bkt" errListSvc ⟨"InternalError", "boom"⟩ rfl,
   error_mapping_amended.2.2.1 "bkt" "k" ⟨"AccessDenied", "boom"⟩ (by decide),
   error_mapping_amended.2.2.2.1 "bkt" "k" ⟨"NotFound", "boom"⟩ rfl,
   error_mapping_amended.2.2.2.2.1 "bkt" "k" none ⟨"InternalError", "boom"⟩ errSignSvc rfl,
   error_mapping_amended.2.2.2.2.2.1 "bkt" "k" ⟨"InternalError", "boom"⟩,
   error_mapping_amended.2.2.2.2.2.2 "bkt" 1 okUploadSvc⟩

/-- C8: the list operation issues exactly one list-objects call with
maxKeys 1000, and on success answers 200 with exactly the reported
objects, each projected to key, lastModified, size, etag. -/
theorem list_maxkeys_and_projection (bucket : String)
    (svc : String → Nat → Except S3Error ListObjectsResult) :
    (listFilesHandler bucket svc).1 = [S3Call.listObjectsV2 bucket 1000]
    ∧ ∀ r, svc bucket 1000 = .ok r →
        (listFilesHandler bucket svc).2 =
          ⟨200, .listSuccess (r.contents.map fileEntryOf)
            (r.contents.map fileEntryOf).length⟩ := by
  constructor
  · simp only [listFilesHandler]
    cases svc bucket 1000 <;> rfl
  · intro r hr
    simp [listFilesHandler, hr]

/-- C8 witness: a concrete list response is the projection of the
reported objects. -/
theorem list_maxkeys_and_projection_witness :
    (listFilesHandler "bkt" okListSvc).2 =
      ⟨200, .listSuccess [⟨"k1", 5, 3, "e1"⟩] 1⟩ :=
  (list_maxkeys_and_projection "bkt" okListSvc).2 ⟨[⟨"k1", 5, 3, "e1"⟩]⟩ rfl

end S3Gateway
